import Mathlib

/-!
# Verification of the PoW registration client

A shallow embedding of the client-side proof-of-work registration and
session code (`Register.js`, `Login.js`, `App.js`, `services/api.js`).

The PoW solver hashes with `crypto.subtle.digest('SHA-256', ...)` over the
UTF-8 bytes of its message and hex-encodes the digest byte by byte with
`b.toString(16).padStart(2, '0')`.  We embed SHA-256 itself (FIPS 180-4)
executably over `Nat`, with 32-bit words represented as naturals reduced
modulo `2^32`.
-/

namespace Pow

/-- `2^32`, the word modulus of SHA-256. -/
def w32 : Nat := 4294967296

/-- Right rotation of a 32-bit word. -/
def rotr (n x : Nat) : Nat := ((x >>> n) ||| (x <<< (32 - n))) % w32

/-- Bitwise complement of a 32-bit word. -/
def bnot32 (x : Nat) : Nat := x ^^^ (w32 - 1)

/-- SHA-256 `Ch` function. -/
def ch (x y z : Nat) : Nat := (x &&& y) ^^^ (bnot32 x &&& z)

/-- SHA-256 `Maj` function. -/
def maj (x y z : Nat) : Nat := (x &&& y) ^^^ (x &&& z) ^^^ (y &&& z)

/-- SHA-256 `Σ0`. -/
def bigSigma0 (x : Nat) : Nat := rotr 2 x ^^^ rotr 13 x ^^^ rotr 22 x

/-- SHA-256 `Σ1`. -/
def bigSigma1 (x : Nat) : Nat := rotr 6 x ^^^ rotr 11 x ^^^ rotr 25 x

/-- SHA-256 `σ0`. -/
def smallSigma0 (x : Nat) : Nat := rotr 7 x ^^^ rotr 18 x ^^^ (x >>> 3)

/-- SHA-256 `σ1`. -/
def smallSigma1 (x : Nat) : Nat := rotr 17 x ^^^ rotr 19 x ^^^ (x >>> 10)

/-- The 64 SHA-256 round constants (FIPS 180-4, written in decimal). -/
def K : List Nat :=
  [1116352408, 1899447441, 3049323471, 3921009573, 961987163, 1508970993,
   2453635748, 2870763221, 3624381080, 310598401, 607225278, 1426881987,
   1925078388, 2162078206, 2614888103, 3248222580, 3835390401, 4022224774,
   264347078, 604807628, 770255983, 1249150122, 1555081692, 1996064986,
   2554220882, 2821834349, 2952996808, 3210313671, 3336571891, 3584528711,
   113926993, 338241895, 666307205, 773529912, 1294757372, 1396182291,
   1695183700, 1986661051, 2177026350, 2456956037, 2730485921, 2820302411,
   3259730800, 3345764771, 3516065817, 3600352804, 4094571909, 275423344,
   430227734, 506948616, 659060556, 883997877, 958139571, 1322822218,
   1537002063, 1747873779, 1955562222, 2024104815, 2227730452, 2361852424,
   2428436474, 2756734187, 3204031479, 3329325298]

/-- The eight working variables / hash state of SHA-256. -/
structure Hash8 where
  a : Nat
  b : Nat
  c : Nat
  d : Nat
  e : Nat
  f : Nat
  g : Nat
  h : Nat
deriving Repr, DecidableEq

/-- SHA-256 initial hash value (FIPS 180-4, written in decimal). -/
def H0 : Hash8 :=
  ⟨1779033703, 3144134277, 1013904242, 2773480762,
   1359893119, 2600822924, 528734635, 1541459225⟩

/-- One SHA-256 compression round with round constant `ki` and schedule word `wi`. -/
def compressStep (s : Hash8) (ki wi : Nat) : Hash8 :=
  let t1 := (s.h + bigSigma1 s.e + ch s.e s.f s.g + ki + wi) % w32
  let t2 := (bigSigma0 s.a + maj s.a s.b s.c) % w32
  ⟨(t1 + t2) % w32, s.a, s.b, s.c, (s.d + t1) % w32, s.e, s.f, s.g⟩

/-- Big-endian 32-bit words from a byte list (leftover bytes dropped;
the padded input is always a multiple of 4). -/
def bytesToWords : List Nat → List Nat
  | a :: b :: c :: d :: rest => (a * 16777216 + b * 65536 + c * 256 + d) :: bytesToWords rest
  | _ => []

/-- Extend the 16-word message schedule by `i` further words. -/
def extendSchedule : Nat → List Nat → List Nat
  | 0, w => w
  | i + 1, w =>
    let t := w.length
    let nw := (smallSigma1 (w.getD (t - 2) 0) + w.getD (t - 7) 0 +
               smallSigma0 (w.getD (t - 15) 0) + w.getD (t - 16) 0) % w32
    extendSchedule i (w ++ [nw])

/-- The full 64-word message schedule of a 64-byte chunk. -/
def schedule (chunk : List Nat) : List Nat := extendSchedule 48 (bytesToWords chunk)

/-- Compress one 64-byte chunk into the running hash state. -/
def compressChunk (H : Hash8) (chunk : List Nat) : Hash8 :=
  let s := (K.zip (schedule chunk)).foldl (fun s kw => compressStep s kw.1 kw.2) H
  ⟨(H.a + s.a) % w32, (H.b + s.b) % w32, (H.c + s.c) % w32, (H.d + s.d) % w32,
   (H.e + s.e) % w32, (H.f + s.f) % w32, (H.g + s.g) % w32, (H.h + s.h) % w32⟩

/-- The 8-byte big-endian encoding of the message bit length. -/
def beBytes8 (n : Nat) : List Nat :=
  [n / 72057594037927936 % 256, n / 281474976710656 % 256,
   n / 1099511627776 % 256, n / 4294967296 % 256,
   n / 16777216 % 256, n / 65536 % 256, n / 256 % 256, n % 256]

/-- SHA-256 padding: append `0x80`, zero bytes to 56 mod 64, then the
bit length as 8 big-endian bytes. -/
def sha256Pad (msg : List Nat) : List Nat :=
  let padZeros := (119 - msg.length % 64) % 64
  msg ++ 0x80 :: List.replicate padZeros 0 ++ beBytes8 (msg.length * 8)

/-- Fold the compression function over successive 64-byte chunks.  The fuel
is instantiated with the padded message length, which always suffices since
every step removes 64 bytes. -/
def processChunks : Nat → Hash8 → List Nat → Hash8
  | 0, H, _ => H
  | _ + 1, H, [] => H
  | fuel + 1, H, msg => processChunks fuel (compressChunk H (msg.take 64)) (msg.drop 64)

/-- The four big-endian bytes of a 32-bit word. -/
def wordToBytes (w : Nat) : List Nat := [w / 16777216 % 256, w / 65536 % 256, w / 256 % 256, w % 256]

/-- SHA-256 of a byte sequence, as its 32 digest bytes. -/
def sha256Bytes (msg : List Nat) : List Nat :=
  let padded := sha256Pad msg
  let H := processChunks padded.length H0 padded
  [H.a, H.b, H.c, H.d, H.e, H.f, H.g, H.h].flatMap wordToBytes

/-- UTF-8 encoding of one character (what `TextEncoder` does per code point). -/
def encodeChar (c : Char) : List Nat :=
  let n := c.toNat
  if n < 128 then [n]
  else if n < 2048 then [192 ||| (n >>> 6), 128 ||| (n &&& 63)]
  else if n < 65536 then [224 ||| (n >>> 12), 128 ||| ((n >>> 6) &&& 63), 128 ||| (n &&& 63)]
  else [240 ||| (n >>> 18), 128 ||| ((n >>> 12) &&& 63), 128 ||| ((n >>> 6) &&& 63), 128 ||| (n &&& 63)]

/-- UTF-8 bytes of a string (the `TextEncoder().encode` of the source). -/
def utf8Encode (s : String) : List Nat := s.data.flatMap encodeChar

/-- A hex digit as JavaScript `toString(16)` renders it: lower case. -/
def hexDigit (n : Nat) : Char := if n < 10 then Char.ofNat (48 + n) else Char.ofNat (87 + n)

/-- One byte as two lower-case hex characters — the source's
`b.toString(16).padStart(2, '0')`. -/
def byteToHex (b : Nat) : List Char := [hexDigit (b / 16), hexDigit (b % 16)]

/-- The digest the source computes: SHA-256 of the string's UTF-8 bytes,
hex-encoded lower case with no separators. -/
def sha256hex (s : String) : String :=
  String.mk ((sha256Bytes (utf8Encode s)).flatMap byteToHex)

example : sha256hex "" = "e3b0c44298fc1c149afbf4c8996fb92427ae41e4649b934ca495991b7852b855" := by decide
example : sha256hex "abc" = "ba7816bf8f01cfea414140de5dae2223b00361a396177a9cb410ff61f20015ad" := by decide

/-! ## The PoW solver (`calculateProofOfWork` in `Register.js`) -/

/-- JavaScript `String.prototype.startsWith` on our (ASCII) strings:
a character-by-character prefix test. -/
def strStartsWith (s p : String) : Bool := p.data.isPrefixOf s.data

/-- The all-zeros target `'0'.repeat(difficulty)` for a non-negative count. -/
def powTarget (difficulty : Nat) : String := String.mk (List.replicate difficulty '0')

/-- The per-nonce acceptance test of the solver loop: the digest of
`challenge ++ toString nonce` starts with `difficulty` `'0'` characters. -/
def powPred (challenge : String) (difficulty nonce : Nat) : Bool :=
  strStartsWith (sha256hex (challenge ++ toString nonce)) (powTarget difficulty)

/-- The solver's result object `{ nonce: nonce.toString(), hash: hash }`. -/
structure Solution where
  nonce : String
  hash : String
deriving Repr, DecidableEq

/-- The `while (true)` search of `calculateProofOfWork`, with explicit fuel
standing for the number of iterations the unbounded loop is allowed; `none`
models a search that is still running after `fuel` iterations.  Each
iteration forms `dataString` as the bare concatenation of the challenge and
the decimal nonce, digests it, and stops when the digest starts with the
target.  (The source's `userData`/`verifyData` locals are dead: `verifyData`
is never read and `userData.nonce` is recomputed from `nonce` each round, so
they do not appear in the embedding.) -/
def powLoop (challenge target : String) : Nat → Nat → Option (Nat × String)
  | _, 0 => none
  | nonce, fuel + 1 =>
    let hash := sha256hex (challenge ++ toString nonce)
    if strStartsWith hash target then some (nonce, hash)
    else powLoop challenge target (nonce + 1) fuel

/-- `calculateProofOfWork(challenge, difficulty)`. The difficulty is an
`Int` because the server value is untrusted: `'0'.repeat(difficulty)` throws
a `RangeError` for a negative count, modelled as `Except.error`; the inner
`Option` is the fuel of the unbounded loop, which starts at nonce `0`. -/
def calculateProofOfWork (challenge : String) (difficulty : Int) (fuel : Nat) :
    Except String (Option Solution) :=
  if difficulty < 0 then .error "RangeError: Invalid count value"
  else
    .ok ((powLoop challenge (powTarget difficulty.toNat) 0 fuel).map
      fun p => ⟨toString p.1, p.2⟩)

/-! ## Data model of the registration and session flows -/

/-- What the client can observe of a failed axios call:
`error.response?.data?.detail`, absent on network errors or non-JSON
bodies. -/
structure ApiError where
  detail : Option String
deriving Repr, DecidableEq

/-- JavaScript `a || b` for the optional server detail string: `b` when the
detail is absent or falsy (the empty string). -/
def jsOr (d : Option String) (fallback : String) : String :=
  match d with
  | some s => if s = "" then fallback else s
  | none => fallback

/-- The challenge payload `{ challenge, difficulty, token }` of
`GET /users/challenge`. -/
structure ChallengeData where
  challenge : String
  difficulty : Int
  token : String
deriving Repr, DecidableEq

/-- The registration body `{ username, password, nonce, hash, active }`. -/
structure RegistrationRequest where
  username : String
  password : String
  nonce : String
  hash : String
  active : Bool
deriving Repr, DecidableEq

/-- The user profile returned by the session service (`GET` current user). -/
structure Profile where
  username : String
deriving Repr, DecidableEq

/-- The `access_token` payload of a successful login. -/
structure LoginResponse where
  access_token : String
deriving Repr, DecidableEq

/-- The outgoing service calls of `services/api.js` (plus the current-user
and login calls), recorded in the order they are issued. -/
inductive ApiCall
  | getChallenge
  | registerUser (userData : RegistrationRequest) (token : String)
  | loginUser (username password : String)
  | getCurrentUser
deriving Repr, DecidableEq

/-- The `result` state of `Register`: `{ success, message }`. -/
structure ResultMsg where
  success : Bool
  message : String
deriving Repr, DecidableEq

/-- The `Register` component's state hooks: `username`, `password`,
`loading`, `result`. -/
structure RegisterState where
  username : String
  password : String
  loading : Bool
  result : Option ResultMsg
deriving Repr, DecidableEq

/-- The generic failure message of `Register.handleSubmit`. -/
def regFallbackMsg : String := "Registration failed. Please try again."

/-- `Register.handleSubmit`: set `loading`, clear `result`, fetch the
challenge, run the solver, submit the registration, and record the outcome;
every thrown error is caught and converted to a failure message, and
`loading` is cleared in the `finally` (except on the `.ok none` branch,
which models the solver still searching: no continuation has run yet).
External calls are parameters: `challengeResp` is the settled outcome of
`api.getChallenge()` and `registerResp` the service's response as a function
of the submitted body and token.  Returns the new state and the calls
issued. -/
def handleSubmit (st : RegisterState) (challengeResp : Except ApiError ChallengeData)
    (registerResp : RegistrationRequest → String → Except ApiError Unit) (fuel : Nat) :
    RegisterState × List ApiCall :=
  let st := { st with loading := true, result := none }
  match challengeResp with
  | .error e =>
      ({ st with loading := false,
                 result := some ⟨false, jsOr e.detail regFallbackMsg⟩ }, [.getChallenge])
  | .ok cd =>
      match calculateProofOfWork cd.challenge cd.difficulty fuel with
      | .error _ =>
          -- a thrown RangeError is caught by the same catch block; it has no
          -- axios response, so the generic fallback message is used
          ({ st with loading := false,
                     result := some ⟨false, regFallbackMsg⟩ }, [.getChallenge])
      | .ok none =>
          -- solver still searching: the await has not resolved
          (st, [.getChallenge])
      | .ok (some pow) =>
          let userData : RegistrationRequest :=
            { username := st.username, password := st.password,
              nonce := pow.nonce, hash := pow.hash, active := false }
          match registerResp userData cd.token with
          | .ok _ =>
              ({ st with loading := false,
                         result := some ⟨true, "Registration successful!"⟩ },
               [.getChallenge, .registerUser userData cd.token])
          | .error e =>
              ({ st with loading := false,
                         result := some ⟨false, jsOr e.detail regFallbackMsg⟩ },
               [.getChallenge, .registerUser userData cd.token])

/-- The submit control of the `Register` form: the button is rendered with
`disabled={loading}`, so a trigger while `loading` is dropped without
running `handleSubmit`. -/
def submitTrigger (st : RegisterState) (challengeResp : Except ApiError ChallengeData)
    (registerResp : RegistrationRequest → String → Except ApiError Unit) (fuel : Nat) :
    RegisterState × List ApiCall :=
  if st.loading then (st, []) else handleSubmit st challengeResp registerResp fuel

/-! ## Session state (`App.js` and `Login.js`) -/

/-- `localStorage` as the client uses it: the single `authToken` key. -/
structure Storage where
  authToken : Option String
deriving Repr, DecidableEq

/-- The `App` component's session state hooks. -/
structure AppState where
  isLoggedIn : Bool
  userData : Option Profile
  loading : Bool
deriving Repr, DecidableEq

/-- The initial `App` state: anonymous, no profile, still loading. -/
def initialAppState : AppState := ⟨false, none, true⟩

/-- `checkAuth` (the startup effect of `App`): if no token is persisted,
finish loading without any call; if one is, validate it by fetching the
current user — on success become logged in with the profile, on any error
remove the persisted token.  `getCurrentUserResp` is the settled outcome of
`api.getCurrentUser()`.  Returns storage, state, and the calls issued. -/
def checkAuth (storage : Storage) (appState : AppState)
    (getCurrentUserResp : Except ApiError Profile) :
    Storage × AppState × List ApiCall :=
  match storage.authToken with
  | none => (storage, { appState with loading := false }, [])
  | some _ =>
      match getCurrentUserResp with
      | .ok profile =>
          (storage, { appState with userData := some profile, isLoggedIn := true,
                                    loading := false }, [.getCurrentUser])
      | .error _ =>
          ({ storage with authToken := none },
           { appState with loading := false }, [.getCurrentUser])

/-- The `Login` component's state hooks. -/
structure LoginState where
  username : String
  password : String
  error : String
deriving Repr, DecidableEq

/-- `Login.handleSubmit` followed by `App.handleLogin` (via
`onLoginSuccess`): clear the error, post the credentials; on success store
the returned `access_token` and fetch the profile, becoming logged in if
that succeeds (a failed profile fetch is only logged, changing nothing
else); on login failure set the error message and leave storage and app
state untouched. -/
def loginHandleSubmit (loginSt : LoginState) (storage : Storage) (appState : AppState)
    (loginResp : Except ApiError LoginResponse)
    (getCurrentUserResp : Except ApiError Profile) :
    LoginState × Storage × AppState × List ApiCall :=
  let st := { loginSt with error := "" }
  match loginResp with
  | .ok resp =>
      let storage := { storage with authToken := some resp.access_token }
      match getCurrentUserResp with
      | .ok profile =>
          (st, storage,
           { appState with userData := some profile, isLoggedIn := true },
           [.loginUser loginSt.username loginSt.password, .getCurrentUser])
      | .error _ =>
          (st, storage, appState,
           [.loginUser loginSt.username loginSt.password, .getCurrentUser])
  | .error e =>
      ({ st with error := "Login failed: " ++ jsOr e.detail "Unknown error" },
       storage, appState,
       [.loginUser loginSt.username loginSt.password])

/-- `App.handleLogout`: remove the persisted token, leave the logged-in
state, drop the profile. -/
def handleLogout (storage : Storage) (appState : AppState) : Storage × AppState :=
  ({ storage with authToken := none },
   { appState with isLoggedIn := false, userData := none })

/-- The sixteen characters JavaScript `toString(16)` can produce. -/
def hexDigits : List Char := "0123456789abcdef".data

/-! ## Properties of the solver loop -/

/-- Invariant of the search loop: a returned pair consists of the first
nonce at or after the start that passes the prefix test, together with the
digest of exactly that nonce's message. -/
theorem powLoop_spec (c t : String) :
    ∀ (fuel s n : Nat) (hs : String),
      powLoop c t s fuel = some (n, hs) →
      s ≤ n ∧ hs = sha256hex (c ++ toString n) ∧
      strStartsWith (sha256hex (c ++ toString n)) t = true ∧
      ∀ m, s ≤ m → m < n → strStartsWith (sha256hex (c ++ toString m)) t = false := by
  intro fuel
  induction fuel with
  | zero => intro s n hs h; simp [powLoop] at h
  | succ fuel ih =>
    intro s n hs h
    simp only [powLoop] at h
    by_cases hc : strStartsWith (sha256hex (c ++ toString s)) t = true
    · rw [if_pos hc] at h
      injection h with h
      injection h with h1 h2
      subst h1
      exact ⟨Nat.le_refl _, h2.symm, hc, fun m hm1 hm2 => absurd (Nat.lt_of_le_of_lt hm1 hm2) (Nat.lt_irrefl _)⟩
    · rw [if_neg hc] at h
      obtain ⟨h1, h2, h3, h4⟩ := ih (s + 1) n hs h
      refine ⟨by omega, h2, h3, fun m hm1 hm2 => ?_⟩
      rcases Nat.eq_or_lt_of_le hm1 with hms | hms
      · subst hms; exact Bool.not_eq_true _ ▸ hc
      · exact h4 m hms hm2

/-- Helper: the length of the hex encoding is twice the byte count. -/
theorem flatMap_byteToHex_length (l : List Nat) :
    (l.flatMap byteToHex).length = 2 * l.length := by
  induction l with
  | nil => rfl
  | cons b l ih => simp [List.flatMap_cons, byteToHex, ih]; omega

/-- Helper: a hex digest is 64 characters. -/
theorem sha256hex_length (s : String) : (sha256hex s).length = 64 := by
  show ((sha256Bytes (utf8Encode s)).flatMap byteToHex).length = 64
  rw [flatMap_byteToHex_length,
      show (sha256Bytes (utf8Encode s)).length = 32 from rfl]

/-- Helper: every digest byte is below 256. -/
theorem sha256Bytes_lt_256 (m : List Nat) : ∀ b ∈ sha256Bytes m, b < 256 := by
  intro b hb
  simp [sha256Bytes, wordToBytes] at hb
  omega

/-- Helper: `hexDigit` of a value below 16 lands in the hex alphabet. -/
theorem hexDigit_mem (n : Nat) (h : n < 16) : hexDigits.contains (hexDigit n) = true := by
  interval_cases n <;> decide

/-- Helper: every character of a digest is a lower-case hex digit. -/
theorem sha256hex_lowercase (s : String) :
    (sha256hex s).data.all (fun ch => hexDigits.contains ch) = true := by
  rw [List.all_eq_true]
  intro ch hch
  rw [show (sha256hex s).data = (sha256Bytes (utf8Encode s)).flatMap byteToHex from rfl,
      List.mem_flatMap] at hch
  obtain ⟨b, hb, hcb⟩ := hch
  have hlt := sha256Bytes_lt_256 (utf8Encode s) b hb
  simp [byteToHex] at hcb
  rcases hcb with rfl | rfl
  · exact hexDigit_mem _ (by omega)
  · exact hexDigit_mem _ (by omega)

/-- **C1.** Whenever `calculateProofOfWork` returns a solution for a
challenge `c` and difficulty `d ≥ 0`, its nonce is the decimal string of
the smallest `n ≥ 0` whose digest has `d` leading `'0'` hex characters: no
smaller nonce passes the test. -/
theorem calculateProofOfWork_least (c : String) (d : Int) (hd : 0 ≤ d) (fuel : Nat)
    (sol : Solution) (h : calculateProofOfWork c d fuel = .ok (some sol)) :
    ∃ n : Nat, sol.nonce = toString n ∧ powPred c d.toNat n = true ∧
      ∀ m < n, powPred c d.toNat m = false := by
  unfold calculateProofOfWork at h
  rw [if_neg (by omega)] at h
  injection h with h
  obtain ⟨⟨n, hs⟩, hp, hsol⟩ := Option.map_eq_some'.mp h
  obtain ⟨-, h2, h3, h4⟩ := powLoop_spec c (powTarget d.toNat) fuel 0 n hs hp
  subst hsol
  exact ⟨n, rfl, h3, fun m hm => h4 m (Nat.zero_le m) hm⟩

set_option maxRecDepth 100000 in
/-- Witness for C1: on challenge `"abc123"` with difficulty 1, the solver
returns nonce 17, and nonces 0–16 all fail the prefix test. -/
theorem calculateProofOfWork_least_witness :
    (0 : Int) ≤ 1 ∧
    calculateProofOfWork "abc123" 1 18 = .ok (some ⟨"17", sha256hex "abc12317"⟩) ∧
    ∃ n : Nat, (Solution.mk "17" (sha256hex "abc12317")).nonce = toString n ∧
      powPred "abc123" (1 : Int).toNat n = true ∧
      ∀ m < n, powPred "abc123" (1 : Int).toNat m = false :=
  ⟨by decide, by rfl,
   calculateProofOfWork_least "abc123" 1 (by decide) 18
     ⟨"17", sha256hex "abc12317"⟩ (by rfl)⟩

/-- **C2.** At every nonce the solver digests the bare concatenation of the
challenge and the decimal nonce; the acceptance test passes exactly when the
first `d` characters of that digest are all `'0'`; and the digest is a
64-character string of lower-case hex digits. -/
theorem pow_message_and_check (c : String) (d n fuel : Nat) :
    (powLoop c (powTarget d) n (fuel + 1) =
      if powPred c d n then some (n, sha256hex (c ++ toString n))
      else powLoop c (powTarget d) (n + 1) fuel) ∧
    (powPred c d n = true ↔
      (sha256hex (c ++ toString n)).data.take d = List.replicate d '0') ∧
    (sha256hex (c ++ toString n)).length = 64 ∧
    (sha256hex (c ++ toString n)).data.all (fun ch => hexDigits.contains ch) = true := by
  refine ⟨rfl, ?_, sha256hex_length _, sha256hex_lowercase _⟩
  show (List.replicate d '0').isPrefixOf (sha256hex (c ++ toString n)).data = true ↔ _
  rw [List.isPrefixOf_iff_prefix, List.prefix_iff_eq_take, List.length_replicate]
  exact eq_comm

/-! ## Properties of the registration and session flows -/

/-- Helper: the JavaScript fallback choice never produces an empty string
when the fallback itself is non-empty. -/
theorem jsOr_ne_empty (d : Option String) (f : String) (hf : f ≠ "") : jsOr d f ≠ "" := by
  cases d with
  | none => exact hf
  | some s =>
    by_cases hs : s = ""
    · simp [jsOr, hs]
      exact hf
    · simp [jsOr, hs]

/-- Helper: appending to a non-empty string stays non-empty. -/
theorem append_ne_empty_left (s t : String) (hs : s.data ≠ []) : s ++ t ≠ "" := by
  intro h
  have hd : s.data ++ t.data = [] := by simpa using congrArg String.data h
  exact hs (List.append_eq_nil.mp hd).1

/-- **C3.** If `checkAuth` finds a persisted token but the session service
rejects it, the state ends Anonymous (not logged in, no profile) and the
token is removed from storage; with no persisted token it ends Anonymous
without issuing any call. -/
theorem checkAuth_rejected_token (t : String) (e : ApiError)
    (resp : Except ApiError Profile) :
    (checkAuth ⟨some t⟩ initialAppState (.error e) =
      (⟨none⟩, ⟨false, none, false⟩, [.getCurrentUser])) ∧
    (checkAuth ⟨none⟩ initialAppState resp = (⟨none⟩, ⟨false, none, false⟩, [])) :=
  ⟨rfl, rfl⟩

/-- **C4.** When fetching the challenge fails, `handleSubmit` ends not
loading with a failed result whose message is the server detail when truthy
and the generic fallback otherwise — in either case non-empty — and the
only call issued is the single challenge fetch: the registration service is
never called and nothing is retried. -/
theorem handleSubmit_challenge_failure (st : RegisterState) (e : ApiError)
    (registerResp : RegistrationRequest → String → Except ApiError Unit) (fuel : Nat) :
    (handleSubmit st (.error e) registerResp fuel).1.loading = false ∧
    (handleSubmit st (.error e) registerResp fuel).1.result =
      some ⟨false, jsOr e.detail regFallbackMsg⟩ ∧
    jsOr e.detail regFallbackMsg ≠ "" ∧
    (handleSubmit st (.error e) registerResp fuel).2 = [.getChallenge] :=
  ⟨rfl, rfl, jsOr_ne_empty _ _ (by decide), rfl⟩

/-- Witness for C4: a network failure (no response detail) at a concrete
idle form state. -/
theorem handleSubmit_challenge_failure_witness :
    (handleSubmit ⟨"alice", "pw", false, none⟩ (.error ⟨none⟩)
        (fun _ _ => .ok ()) 5).1.loading = false ∧
    (handleSubmit ⟨"alice", "pw", false, none⟩ (.error ⟨none⟩)
        (fun _ _ => .ok ()) 5).1.result =
      some ⟨false, jsOr (ApiError.mk none).detail regFallbackMsg⟩ ∧
    jsOr (ApiError.mk none).detail regFallbackMsg ≠ "" ∧
    (handleSubmit ⟨"alice", "pw", false, none⟩ (.error ⟨none⟩)
        (fun _ _ => .ok ()) 5).2 = [.getChallenge] :=
  handleSubmit_challenge_failure ⟨"alice", "pw", false, none⟩ ⟨none⟩ (fun _ _ => .ok ()) 5

/-- Counterexample to C5 as stated: when the credential exchange succeeds
but the profile fetch fails — a login failure in the claim's sense — the
code has already persisted the new `access_token` (the token is NOT left
unchanged: it goes from absent to `some "tok"`), the app never becomes
authenticated, and the surfaced error field stays empty (the failure is
only logged). -/
theorem login_profile_fetch_failure :
    (loginHandleSubmit ⟨"alice", "pw", ""⟩ ⟨none⟩ ⟨false, none, false⟩
        (.ok ⟨"tok"⟩) (.error ⟨none⟩)).2.1.authToken = some "tok" ∧
    (loginHandleSubmit ⟨"alice", "pw", ""⟩ ⟨none⟩ ⟨false, none, false⟩
        (.ok ⟨"tok"⟩) (.error ⟨none⟩)).2.1.authToken ≠ (Storage.mk none).authToken ∧
    (loginHandleSubmit ⟨"alice", "pw", ""⟩ ⟨none⟩ ⟨false, none, false⟩
        (.ok ⟨"tok"⟩) (.error ⟨none⟩)).1.error = "" ∧
    (loginHandleSubmit ⟨"alice", "pw", ""⟩ ⟨none⟩ ⟨false, none, false⟩
        (.ok ⟨"tok"⟩) (.error ⟨none⟩)).2.2.1.isLoggedIn = false ∧
    (loginHandleSubmit ⟨"alice", "pw", ""⟩ ⟨none⟩ ⟨false, none, false⟩
        (.ok ⟨"tok"⟩) (.error ⟨none⟩)).2.2.1.userData = none :=
  ⟨rfl, by decide, rfl, rfl, rfl⟩

/-- **C5 (amended).** A login whose credential exchange and profile fetch
both succeed leaves the app logged in with the fetched profile and persists
exactly the returned `access_token`; a failed credential exchange leaves
storage and app state untouched and surfaces a non-empty error message; a
successful credential exchange followed by a failed profile fetch still
persists the returned `access_token`, leaves the app state unchanged, and
surfaces nothing (the error field stays cleared — the failure is only
logged). -/
theorem login_success_and_failure (loginSt : LoginState) (sg : Storage) (app : AppState)
    (tok : String) (p : Profile) (e : ApiError) (resp2 : Except ApiError Profile)
    (e2 : ApiError) :
    (loginHandleSubmit loginSt sg app (.ok ⟨tok⟩) (.ok p) =
      ({ loginSt with error := "" }, { sg with authToken := some tok },
       { app with userData := some p, isLoggedIn := true },
       [.loginUser loginSt.username loginSt.password, .getCurrentUser])) ∧
    (loginHandleSubmit loginSt sg app (.error e) resp2 =
      ({ loginSt with error := "Login failed: " ++ jsOr e.detail "Unknown error" },
       sg, app, [.loginUser loginSt.username loginSt.password])) ∧
    ("Login failed: " ++ jsOr e.detail "Unknown error") ≠ "" ∧
    (loginHandleSubmit loginSt sg app (.ok ⟨tok⟩) (.error e2) =
      ({ loginSt with error := "" }, { sg with authToken := some tok }, app,
       [.loginUser loginSt.username loginSt.password, .getCurrentUser])) :=
  ⟨rfl, rfl, append_ne_empty_left _ _ (by decide), rfl⟩

/-- **C6.** A solution returned by the solver stores exactly the digest of
the challenge concatenated with its own nonce string, and the body
submitted to the registration service carries that nonce/hash pair
verbatim, whatever the service then answers. -/
theorem solution_roundtrip (cd : ChallengeData) (fuel : Nat) (sol : Solution)
    (hpow : calculateProofOfWork cd.challenge cd.difficulty fuel = .ok (some sol))
    (st : RegisterState)
    (registerResp : RegistrationRequest → String → Except ApiError Unit) :
    sol.hash = sha256hex (cd.challenge ++ sol.nonce) ∧
    (handleSubmit st (.ok cd) registerResp fuel).2 =
      [.getChallenge,
       .registerUser ⟨st.username, st.password, sol.nonce, sol.hash, false⟩ cd.token] := by
  constructor
  · unfold calculateProofOfWork at hpow
    by_cases hd : cd.difficulty < 0
    · rw [if_pos hd] at hpow; exact absurd hpow (by simp)
    · rw [if_neg hd] at hpow
      injection hpow with h
      obtain ⟨⟨n, hs⟩, hp, hsol⟩ := Option.map_eq_some'.mp h
      obtain ⟨-, h2, -, -⟩ := powLoop_spec _ _ fuel 0 n hs hp
      subst hsol
      simpa using h2
  · cases hreg : registerResp ⟨st.username, st.password, sol.nonce, sol.hash, false⟩ cd.token with
    | ok u => simp [handleSubmit, hpow, hreg]
    | error e2 => simp [handleSubmit, hpow, hreg]

/-- Witness for C6: difficulty 0 on challenge `"abc"` is solved at nonce 0
and that exact pair reaches the registration call. -/
theorem solution_roundtrip_witness :
    calculateProofOfWork "abc" 0 1 = .ok (some ⟨"0", sha256hex "abc0"⟩) ∧
    ((Solution.mk "0" (sha256hex "abc0")).hash =
      sha256hex ("abc" ++ (Solution.mk "0" (sha256hex "abc0")).nonce) ∧
     (handleSubmit ⟨"alice", "pw", false, none⟩ (.ok ⟨"abc", 0, "tok"⟩)
        (fun _ _ => .ok ()) 1).2 =
      [.getChallenge,
       .registerUser ⟨"alice", "pw", "0", sha256hex "abc0", false⟩ "tok"]) :=
  ⟨by rfl,
   solution_roundtrip ⟨"abc", 0, "tok"⟩ 1 ⟨"0", sha256hex "abc0"⟩ (by rfl)
     ⟨"alice", "pw", false, none⟩ (fun _ _ => .ok ())⟩

/-- Counterexample to C7 as stated: at a concrete successful registration
the state transitions to Success but the entered username and password are
NOT cleared — they keep their submitted values. -/
theorem register_success_not_cleared :
    ((handleSubmit ⟨"alice", "pw", false, none⟩ (.ok ⟨"abc", 0, "tok"⟩)
        (fun _ _ => .ok ()) 1).1.result = some ⟨true, "Registration successful!"⟩) ∧
    ((handleSubmit ⟨"alice", "pw", false, none⟩ (.ok ⟨"abc", 0, "tok"⟩)
        (fun _ _ => .ok ()) 1).1.username = "alice") ∧
    ((handleSubmit ⟨"alice", "pw", false, none⟩ (.ok ⟨"abc", 0, "tok"⟩)
        (fun _ _ => .ok ()) 1).1.password = "pw") ∧
    ¬((handleSubmit ⟨"alice", "pw", false, none⟩ (.ok ⟨"abc", 0, "tok"⟩)
        (fun _ _ => .ok ()) 1).1.username = "" ∧
      (handleSubmit ⟨"alice", "pw", false, none⟩ (.ok ⟨"abc", 0, "tok"⟩)
        (fun _ _ => .ok ()) 1).1.password = "") := by
  refine ⟨by rfl, by rfl, by rfl, ?_⟩
  intro h
  exact absurd (h.1.symm.trans (by rfl)) (by decide)

/-- **C7 (amended).** On a successful submission the protocol transitions
to Success (`result` set, `loading` cleared) while the entered username and
password fields are left unchanged, not cleared. -/
theorem register_success_state (st : RegisterState) (cd : ChallengeData) (fuel : Nat)
    (sol : Solution)
    (hpow : calculateProofOfWork cd.challenge cd.difficulty fuel = .ok (some sol))
    (registerResp : RegistrationRequest → String → Except ApiError Unit)
    (hreg : registerResp ⟨st.username, st.password, sol.nonce, sol.hash, false⟩ cd.token
              = .ok ()) :
    handleSubmit st (.ok cd) registerResp fuel =
      ({ st with loading := false, result := some ⟨true, "Registration successful!"⟩ },
       [.getChallenge,
        .registerUser ⟨st.username, st.password, sol.nonce, sol.hash, false⟩ cd.token]) := by
  simp [handleSubmit, hpow, hreg]

/-- Witness for C7 (amended) at the concrete run of the counterexample. -/
theorem register_success_state_witness :
    calculateProofOfWork "abc" 0 1 = .ok (some ⟨"0", sha256hex "abc0"⟩) ∧
    handleSubmit ⟨"alice", "pw", false, none⟩ (.ok ⟨"abc", 0, "tok"⟩)
        (fun _ _ => .ok ()) 1 =
      (⟨"alice", "pw", false, some ⟨true, "Registration successful!"⟩⟩,
       [.getChallenge,
        .registerUser ⟨"alice", "pw", "0", sha256hex "abc0", false⟩ "tok"]) :=
  ⟨by rfl,
   register_success_state ⟨"alice", "pw", false, none⟩ ⟨"abc", 0, "tok"⟩ 1
     ⟨"0", sha256hex "abc0"⟩ (by rfl) (fun _ _ => .ok ()) (by rfl)⟩

/-- **C8.** While `loading` is set the guarded submit control drops the
trigger without any state change or call, and a completed `handleSubmit`
run clears `loading` exactly when the attempt has reached a Success or
Failed result. -/
theorem submit_guard (st : RegisterState) (ch : Except ApiError ChallengeData)
    (registerResp : RegistrationRequest → String → Except ApiError Unit) (fuel : Nat)
    (hl : st.loading = true) :
    submitTrigger st ch registerResp fuel = (st, []) ∧
    ((handleSubmit st ch registerResp fuel).1.loading = false ↔
      ((handleSubmit st ch registerResp fuel).1.result).isSome = true) := by
  constructor
  · simp [submitTrigger, hl]
  · cases ch with
    | error e => simp [handleSubmit]
    | ok cd =>
      cases hp : calculateProofOfWork cd.challenge cd.difficulty fuel with
      | error msg => simp [handleSubmit, hp]
      | ok o =>
        cases o with
        | none => simp [handleSubmit, hp]
        | some sol =>
          cases hr : registerResp ⟨st.username, st.password, sol.nonce, sol.hash, false⟩
              cd.token with
          | ok u => simp [handleSubmit, hp, hr]
          | error e2 => simp [handleSubmit, hp, hr]

/-- Witness for C8: a loading form drops the trigger, and the completed
run of a failing challenge fetch has `loading` cleared with a result set. -/
theorem submit_guard_witness :
    (RegisterState.mk "u" "p" true none).loading = true ∧
    (submitTrigger ⟨"u", "p", true, none⟩ (.error ⟨none⟩) (fun _ _ => .ok ()) 0 =
      (⟨"u", "p", true, none⟩, []) ∧
     ((handleSubmit ⟨"u", "p", true, none⟩ (.error ⟨none⟩) (fun _ _ => .ok ()) 0).1.loading
        = false ↔
      ((handleSubmit ⟨"u", "p", true, none⟩ (.error ⟨none⟩)
          (fun _ _ => .ok ()) 0).1.result).isSome = true)) :=
  ⟨rfl, submit_guard ⟨"u", "p", true, none⟩ (.error ⟨none⟩) (fun _ _ => .ok ()) 0 rfl⟩

/-- **C9.** `handleLogout` unconditionally clears the persisted token and
resets to an anonymous state (not logged in, no profile), and a second
logout from the state it produced changes nothing: logout is idempotent. -/
theorem logout_idempotent (sg : Storage) (app : AppState) :
    (handleLogout sg app).1.authToken = none ∧
    (handleLogout sg app).2.isLoggedIn = false ∧
    (handleLogout sg app).2.userData = none ∧
    handleLogout (handleLogout sg app).1 (handleLogout sg app).2 = handleLogout sg app :=
  ⟨rfl, rfl, rfl, rfl⟩

/-- **C10.** For any strictly negative difficulty the solver throws before
searching: `'0'.repeat(difficulty)` fails with a `RangeError`, so no
`Solution` is ever produced. -/
theorem negative_difficulty_error (c : String) (d : Int) (hd : d < 0) (fuel : Nat) :
    calculateProofOfWork c d fuel = .error "RangeError: Invalid count value" := by
  unfold calculateProofOfWork
  rw [if_pos hd]

/-- Witness for C10 at difficulty `-1`. -/
theorem negative_difficulty_error_witness :
    (-1 : Int) < 0 ∧
    calculateProofOfWork "abc" (-1) 3 = .error "RangeError: Invalid count value" :=
  ⟨by decide, negative_difficulty_error "abc" (-1) (by decide) 3⟩

end Pow
